import Mathlib

/-!
Verification of the Spinnaker GigE enumeration / configuration examples.

The definitions below are a shallow embedding of the C/C++ sources:
- `GigEConfig.cpp` (address formatting helpers and the CLI entry point),
- `EnumerationEvents.cpp` (the system event handler's re-registration
  discipline on interface arrival / removal),
and, where the deciding code lives in the vendor transport library rather
than in the example sources, a model built from the specification's words
(each such definition says so in its doc comment).

Machine integers are embedded as `Int` (C `int64_t`, `long long`) and
`Nat` with explicit reductions modulo `2^32` / `2^64` at the points where
the C code casts or relies on two's-complement bit patterns.
-/

namespace Blackfly

/-! ### GigEConfig.cpp: address formatting helpers -/

/-- The C cast `static_cast<unsigned int>(value)` of an `int64_t`:
the low 32 bits of the two's-complement pattern. -/
def low32 (value : Int) : Nat := (value % (4294967296 : Int)).toNat

/-- The two's-complement 64-bit pattern of an `int64_t` value, as a `Nat`. -/
def bits64 (value : Int) : Nat := (value % (18446744073709551616 : Int)).toNat

/-- `GetDottedAddress` from `GigEConfig.cpp` (lines 63-77): casts to
`unsigned int`, then prints the four mask-and-shift bytes in decimal,
joined by dots. -/
def GetDottedAddress (value : Int) : String :=
  toString ((low32 value &&& 0xFF000000) >>> 24) ++ "." ++
  toString ((low32 value &&& 0x00FF0000) >>> 16) ++ "." ++
  toString ((low32 value &&& 0x0000FF00) >>> 8) ++ "." ++
  toString (low32 value &&& 0x000000FF)

/-- One upper-case hexadecimal digit, as printed by
`std::uppercase << std::hex`. -/
def hexDigit (n : Nat) : Char :=
  if n < 10 then Char.ofNat (48 + n) else Char.ofNat (55 + n)

/-- A byte printed by `std::uppercase << std::setfill('0') << std::setw(2)
<< std::hex` for values below 256: two hex digits, zero-padded. -/
def hexPair (n : Nat) : String :=
  String.mk [hexDigit (n / 16), hexDigit (n % 16)]

/-- The integer overload of `GetMACAddress` from `GigEConfig.cpp`
(lines 79-102): six mask-and-shift bytes of the `long long` bit pattern,
printed as upper-case zero-padded hex pairs joined by colons. -/
def GetMACAddressInt (value : Int) : String :=
  hexPair ((bits64 value &&& 0xFF0000000000) >>> 40) ++ ":" ++
  hexPair ((bits64 value &&& 0x00FF00000000) >>> 32) ++ ":" ++
  hexPair ((bits64 value &&& 0x0000FF000000) >>> 24) ++ ":" ++
  hexPair ((bits64 value &&& 0x000000FF0000) >>> 16) ++ ":" ++
  hexPair ((bits64 value &&& 0x00000000FF00) >>> 8) ++ ":" ++
  hexPair (bits64 value &&& 0x0000000000FF)

/-- The string overload of `GetMACAddress` from `GigEConfig.cpp`
(lines 104-110): `std::replace(begin, end, '-', ':')` over the input. -/
def GetMACAddressStr (macAddrString : String) : String :=
  String.mk (macAddrString.data.map (fun c => if c = '-' then ':' else c))

/-- The dotted-quad rendering as worded by the specification: the decimal
values of `(v>>24)&0xFF`, `(v>>16)&0xFF`, `(v>>8)&0xFF`, `v&0xFF` of the
low 32 bits, joined by dots. -/
def dottedQuadSpec (value : Int) : String :=
  toString ((low32 value >>> 24) &&& 0xFF) ++ "." ++
  toString ((low32 value >>> 16) &&& 0xFF) ++ "." ++
  toString ((low32 value >>> 8) &&& 0xFF) ++ "." ++
  toString (low32 value &&& 0xFF)

/-- The MAC rendering as worded by the specification: six upper-case hex
byte pairs joined by colons, taken from bits 40 down to 0 in 8-bit steps,
each zero-padded to width 2. -/
def macFormatSpec (value : Int) : String :=
  hexPair ((bits64 value >>> 40) &&& 0xFF) ++ ":" ++
  hexPair ((bits64 value >>> 32) &&& 0xFF) ++ ":" ++
  hexPair ((bits64 value >>> 24) &&& 0xFF) ++ ":" ++
  hexPair ((bits64 value >>> 16) &&& 0xFF) ++ ":" ++
  hexPair ((bits64 value >>> 8) &&& 0xFF) ++ ":" ++
  hexPair (bits64 value &&& 0xFF)

/-! ### GigEConfig.cpp: CLI entry point -/

/-- Constant `zeroSerial` from `GigEConfig.cpp` line 41. -/
def zeroSerial : String := "0"

/-- Constant `zeroIPAddress` from `GigEConfig.cpp` line 42. -/
def zeroIPAddress : String := "0.0.0.0"

/-- Constant `zeroMACAddress` from `GigEConfig.cpp` line 43. -/
def zeroMACAddress : String := "00:00:00:00"

/-- The observable operations the CLI performs; a run of `main` is an exit
code together with the list of operations it executed. -/
inductive CliAction where
  | listAll
  | autoConfigure
  | listBySerial (serial : String)
  | listByMAC (mac : String)
  | configureReport
  | forceIP (ip mask gateway : String)
  | usage

/-- The five option strings `main` accumulates in the 9-argument case. -/
structure GigEOptions where
  serialNumber : String := ""
  macAddress : String := ""
  ipAddress : String := ""
  subnetMask : String := ""
  gateway : String := ""

/-- One iteration of the option-scanning loop in `main` (`GigEConfig.cpp`
lines 671-693): `f` is `argv[i]`, `v` is `argv[i+1]`. -/
def parseStep (f v : String) (o : GigEOptions) : GigEOptions :=
  if f = "-s" ∨ f = "-S" then { o with serialNumber := v }
  else if f = "-m" ∨ f = "-M" then { o with macAddress := GetMACAddressStr v }
  else if f = "-i" ∨ f = "-I" then { o with ipAddress := v }
  else if f = "-n" ∨ f = "-N" then { o with subnetMask := v }
  else if f = "-g" ∨ f = "-G" then { o with gateway := v }
  else o

/-- The whole option-scanning loop of the 9-argument case. -/
def parsePairs : List (String × String) → GigEOptions → GigEOptions
  | [], o => o
  | (f, v) :: rest, o => parsePairs rest (parseStep f v o)

/-- `ConfigureCamera` from `GigEConfig.cpp` lines 615-623: it only prints
that forcing a specific IP address, netmask and gateway is unsupported,
and performs no configuration. -/
def ConfigureCamera (_serial _mac _ip _mask _gateway : String) :
    List CliAction :=
  [CliAction.configureReport]

/-- The `argc == 2` case of `main`'s switch (`GigEConfig.cpp` lines
645-652): `a` is `argv[1]`. -/
def mainCase2 (a : String) : Int × List CliAction :=
  if a = "-a" ∨ a = "-A" then (0, [CliAction.autoConfigure])
  else (-1, [CliAction.usage])

/-- The `argc == 3` case of `main`'s switch (`GigEConfig.cpp` lines
653-668): `a` is `argv[1]`, `v` is `argv[2]`. -/
def mainCase3 (a v : String) : Int × List CliAction :=
  if a = "-s" ∨ a = "-S" then (0, [CliAction.listBySerial v])
  else if a = "-m" ∨ a = "-M" then
    (0, [CliAction.listByMAC (GetMACAddressStr v)])
  else (-1, [CliAction.usage])

/-- The `argc == 9` case of `main`'s switch (`GigEConfig.cpp` lines
669-704): scan the four flag/value pairs, then configure if the options
pass the non-zero comparisons. -/
def mainCase9 (f1 v1 f2 v2 f3 v3 f4 v4 : String) : Int × List CliAction :=
  let o := parsePairs [(f1, v1), (f2, v2), (f3, v3), (f4, v4)] {}
  if (o.serialNumber ≠ zeroSerial ∨ o.macAddress ≠ zeroMACAddress) ∧
      o.ipAddress ≠ zeroIPAddress ∧ o.subnetMask ≠ zeroIPAddress ∧
      o.gateway ≠ zeroIPAddress then
    (0, ConfigureCamera o.serialNumber o.macAddress o.ipAddress
      o.subnetMask o.gateway)
  else (-1, [CliAction.usage])

/-- `main` from `GigEConfig.cpp` lines 627-716, over the argument list
without `argv[0]` (so `args.length = argc - 1`): the switch on `argc`,
with the default case printing usage and returning -1.  Returns the exit
code and the operations performed. -/
def gigeMain (args : List String) : Int × List CliAction :=
  match args with
  | [] => (0, [CliAction.listAll])
  | [a] => mainCase2 a
  | [a, v] => mainCase3 a v
  | [f1, v1, f2, v2, f3, v3, f4, v4] => mainCase9 f1 v1 f2 v2 f3 v3 f4 v4
  | _ => (-1, [CliAction.usage])

/-- The options accumulated by the four scan iterations of the
9-argument case, written as the unfolding of the loop. -/
def scan8 (f1 v1 f2 v2 f3 v3 f4 v4 : String) : GigEOptions :=
  parseStep f4 v4 (parseStep f3 v3 (parseStep f2 v2 (parseStep f1 v1 {})))

/-- The validity test `main` applies to the scanned options in the
9-argument case (`GigEConfig.cpp` lines 696-698). -/
@[reducible]
def valid8 (o : GigEOptions) : Prop :=
  (o.serialNumber ≠ zeroSerial ∨ o.macAddress ≠ zeroMACAddress) ∧
    o.ipAddress ≠ zeroIPAddress ∧ o.subnetMask ≠ zeroIPAddress ∧
    o.gateway ≠ zeroIPAddress

/-- The well-formed commands exactly as the claim enumerates them: no
arguments, `-a`, `-s serial`, `-m mac`, or the 4-flag combination with
non-zero address values. -/
def wellFormedCommand (args : List String) : Prop :=
  args = [] ∨ args = ["-a"] ∨ (∃ s, args = ["-s", s]) ∨
  (∃ m, args = ["-m", m]) ∨
  (∃ id ip mask gw,
    (args = ["-s", id, "-i", ip, "-n", mask, "-g", gw] ∨
     args = ["-m", id, "-i", ip, "-n", mask, "-g", gw]) ∧
    ip ≠ zeroIPAddress ∧ mask ≠ zeroIPAddress ∧ gw ≠ zeroIPAddress)

/-- The argument lists the code actually accepts (exit code 0): this is
the condition `main` tests, written out by argument-count case. -/
def acceptedArgs (args : List String) : Prop :=
  match args with
  | [] => True
  | [a] => a = "-a" ∨ a = "-A"
  | [a, _] => a = "-s" ∨ a = "-S" ∨ a = "-m" ∨ a = "-M"
  | [f1, v1, f2, v2, f3, v3, f4, v4] => valid8 (scan8 f1 v1 f2 v2 f3 v3 f4 v4)
  | _ => False

/-- Lower-casing of the option flags `main` recognizes; any other string
is left unchanged. -/
def lowerFlag (s : String) : String :=
  if s = "-A" then "-a"
  else if s = "-S" then "-s"
  else if s = "-M" then "-m"
  else if s = "-I" then "-i"
  else if s = "-N" then "-n"
  else if s = "-G" then "-g"
  else s

/-- Applies `lowerFlag` at the even (flag) positions of an argument list
and leaves the odd (value) positions unchanged. -/
def lowerEven : List String → List String
  | [] => []
  | [f] => [lowerFlag f]
  | f :: v :: rest => lowerFlag f :: v :: lowerEven rest

/-! ### EnumerationEvents.cpp: the system event handler -/

/-- One transport interface as enumerated: its `InterfaceID` string and
the serial numbers of the cameras attached to it. -/
structure IfaceInfo where
  ifaceID : String
  cameras : List Nat

/-- The observable calls the `SystemEventHandler` methods make, in
program order. -/
inductive EvAction where
  | updateInterfaceList
  | getInterfaces
  | printDevice (serial : Nat)
  | registerSystemEvent
  | registerIfaceEvent (ifaceID : String)

/-- The state the handler methods act on: the hardware topology the
transport layer would enumerate, the system's current interface list,
the interfaces that currently have an interface-scope event handler
registered (`m_interfaceEventHandlers`), and whether the system-scope
handler is registered. -/
structure SpinState where
  hardware : List IfaceInfo
  current : List IfaceInfo
  registered : List String
  systemRegistered : Bool

/-- `System::UpdateInterfaceList()`: re-enumerates hardware into the
current interface list. -/
def UpdateInterfaceList (s : SpinState) : SpinState :=
  { s with current := s.hardware }

/-- `SystemEventHandler::RegisterInterfaceEventToSystem`
(`EnumerationEvents.cpp` lines 234-263): creates the system-scope
handler if needed and registers it with the system. -/
def RegisterInterfaceEventToSystem (s : SpinState) :
    SpinState × List EvAction :=
  ({ s with systemRegistered := true }, [EvAction.registerSystemEvent])

/-- `SystemEventHandler::RegisterInterfaceEvents`
(`EnumerationEvents.cpp` lines 284-324): clears the handler vector,
retrieves the interface list (`GetInterfaces()` re-enumerates), and
registers a fresh handler on every interface in the new list. -/
def RegisterInterfaceEvents (s : SpinState) : SpinState × List EvAction :=
  let su := { s with current := s.hardware }
  ({ su with registered := su.current.map IfaceInfo.ifaceID },
    EvAction.getInterfaces ::
      su.current.map (fun f => EvAction.registerIfaceEvent f.ifaceID))

/-- `SystemEventHandler::OnInterfaceArrival` (`EnumerationEvents.cpp`
lines 161-210): refreshes the interface list, walks the new list to
print the devices on the arrived interface, then re-registers the
system-scope handler and every interface-scope handler. -/
def OnInterfaceArrival (ifaceID : String) (s : SpinState) :
    SpinState × List EvAction :=
  let s1 := UpdateInterfaceList s
  let enumActs := EvAction.getInterfaces ::
    ((s1.current.filter (fun f => f.ifaceID == ifaceID)).flatMap
      (fun f => f.cameras.map EvAction.printDevice))
  let p2 := RegisterInterfaceEventToSystem s1
  let p3 := RegisterInterfaceEvents p2.1
  (p3.1, EvAction.updateInterfaceList :: (enumActs ++ p2.2) ++ p3.2)

/-- `SystemEventHandler::OnInterfaceRemoval` (`EnumerationEvents.cpp`
lines 223-232): refreshes the interface list, then re-registers the
system-scope handler and every interface-scope handler. -/
def OnInterfaceRemoval (_ifaceID : String) (s : SpinState) :
    SpinState × List EvAction :=
  let s1 := UpdateInterfaceList s
  let p2 := RegisterInterfaceEventToSystem s1
  let p3 := RegisterInterfaceEvents p2.1
  (p3.1, EvAction.updateInterfaceList :: p2.2 ++ p3.2)

/-! ### Models of the vendor transport layer, from the specification -/

/-- Modelled from the spec: the error taxonomy of §7; the transport
library raising these is not under `src/`. -/
inductive SpinErr where
  | EnumerationError
  | StaleHandle
  | AlreadyReleased
  | InvalidAddress
  | NotSupported

/-- Modelled from the spec: the `TopologyRegistry` singleton of §4.1
(the vendor `System` object, not under `src/`): it owns the current
snapshot, and each `Refresh` starts a new snapshot epoch. -/
structure TopologyRegistry where
  epoch : Nat
  snapshot : List IfaceInfo

/-- Modelled from the spec: an `InterfaceHandle` of §4.2 (issued by the
vendor registry, not under `src/`) records the snapshot epoch it
originates from; it is stale once that epoch is superseded. -/
structure InterfaceHandle where
  ifaceID : String
  originEpoch : Nat

/-- Modelled from the spec: `Refresh()` of §4.1 re-enumerates hardware
and atomically replaces the snapshot, superseding the previous epoch. -/
def Refresh (r : TopologyRegistry) (hw : List IfaceInfo) :
    TopologyRegistry :=
  { epoch := r.epoch + 1, snapshot := hw }

/-- Modelled from the spec: handles are produced only by the registry's
`GetInterfaces()`/`Refresh()`, stamped with the current epoch. -/
def getInterfaceHandles (r : TopologyRegistry) : List InterfaceHandle :=
  r.snapshot.map (fun f => { ifaceID := f.ifaceID, originEpoch := r.epoch })

/-- Modelled from the spec: `InterfaceHandle::RegisterSubscription` of
§4.2 (vendor `Interface::RegisterEvent`, not under `src/`): succeeds on
a handle of the current epoch and fails with `StaleHandle` on a handle
whose originating snapshot has been superseded. -/
def RegisterSubscription (r : TopologyRegistry) (h : InterfaceHandle) :
    Except SpinErr TopologyRegistry :=
  if h.originEpoch = r.epoch then Except.ok r
  else Except.error SpinErr.StaleHandle

/-- Modelled from the spec: the hardware truth the registry enumerates —
the attachment point of a device is a physical fact, so each enumerated
device pairs its serial number with the one interface hosting it. -/
structure Hardware where
  interfaceIDs : List String
  devices : List (Nat × String)

/-- Modelled from the spec: a `TopologySnapshot` of §3 — the ordered
interface list plus the flattened system-wide device list. -/
structure TopologySnapshot where
  interfaces : List IfaceInfo
  devices : List Nat

/-- Modelled from the spec: the device sequence of one interface in a
snapshot — the serial numbers of the enumerated devices hosted on it. -/
def hostedCameras (hw : Hardware) (id : String) : List Nat :=
  (hw.devices.filter (fun p => p.2 == id)).map Prod.fst

/-- Modelled from the spec: the registry's snapshot construction (vendor
enumeration, not under `src/`): each interface's device sequence is the
devices hosted on it, and the flattened list is their concatenation. -/
def takeSnapshot (hw : Hardware) : TopologySnapshot :=
  let ifs := hw.interfaceIDs.map (fun id =>
    { ifaceID := id, cameras := hostedCameras hw id })
  { interfaces := ifs, devices := ifs.flatMap IfaceInfo.cameras }

/-- A notification delivered by the event dispatcher. -/
inductive Notification where
  | deviceArrival (serial : Nat)
  | deviceRemoval (serial : Nat)
  | interfaceArrival (ifaceID : String)
  | interfaceRemoval (ifaceID : String)

/-- Modelled from the spec: the `EventDispatcher` (transport layer, not
under `src/`; `EnumerationEvents.cpp` lines 412-426 record its contract)
delivers, when an interface departs, the device-removal notification of
every attached device and then the interface-removal notification. -/
def interfaceDepartureNotifications (iface : IfaceInfo) :
    List Notification :=
  iface.cameras.map Notification.deviceRemoval ++
    [Notification.interfaceRemoval iface.ifaceID]

/-! ### Helper lemmas on masks and shifts -/

/-- Masking with a shifted mask and then shifting down equals shifting
down and then masking. -/
theorem land_shiftLeft_shiftRight (n m k : Nat) :
    (n &&& (m <<< k)) >>> k = (n >>> k) &&& m := by
  apply Nat.eq_of_testBit_eq
  intro i
  simp [Nat.testBit_shiftRight, Nat.testBit_land, Nat.testBit_shiftLeft,
    Nat.le_add_right, Nat.add_sub_cancel_left]

/-- The byte at bit 8 via mask-then-shift equals shift-then-mask. -/
theorem mask_shift_8 (n : Nat) :
    (n &&& 0xFF00) >>> 8 = (n >>> 8) &&& 0xFF := by
  rw [show (0xFF00 : Nat) = 0xFF <<< 8 from by decide]
  exact land_shiftLeft_shiftRight n 0xFF 8

/-- The byte at bit 16 via mask-then-shift equals shift-then-mask. -/
theorem mask_shift_16 (n : Nat) :
    (n &&& 0xFF0000) >>> 16 = (n >>> 16) &&& 0xFF := by
  rw [show (0xFF0000 : Nat) = 0xFF <<< 16 from by decide]
  exact land_shiftLeft_shiftRight n 0xFF 16

/-- The byte at bit 24 via mask-then-shift equals shift-then-mask. -/
theorem mask_shift_24 (n : Nat) :
    (n &&& 0xFF000000) >>> 24 = (n >>> 24) &&& 0xFF := by
  rw [show (0xFF000000 : Nat) = 0xFF <<< 24 from by decide]
  exact land_shiftLeft_shiftRight n 0xFF 24

/-- The byte at bit 32 via mask-then-shift equals shift-then-mask. -/
theorem mask_shift_32 (n : Nat) :
    (n &&& 0xFF00000000) >>> 32 = (n >>> 32) &&& 0xFF := by
  rw [show (0xFF00000000 : Nat) = 0xFF <<< 32 from by decide]
  exact land_shiftLeft_shiftRight n 0xFF 32

/-- The byte at bit 40 via mask-then-shift equals shift-then-mask. -/
theorem mask_shift_40 (n : Nat) :
    (n &&& 0xFF0000000000) >>> 40 = (n >>> 40) &&& 0xFF := by
  rw [show (0xFF0000000000 : Nat) = 0xFF <<< 40 from by decide]
  exact land_shiftLeft_shiftRight n 0xFF 40

/-! ### Claim theorems for the formatting helpers -/

/-- Claim C5: for every 64-bit integer input, `GetDottedAddress` returns
the dotted-quad big-endian rendering of its low 32 bits, and formatting
`0xC0A80101` yields `"192.168.1.1"`. -/
theorem c5_dotted_address :
    (∀ value : Int, GetDottedAddress value = dottedQuadSpec value) ∧
    GetDottedAddress 0xC0A80101 = "192.168.1.1" := by
  constructor
  · intro value
    unfold GetDottedAddress dottedQuadSpec
    simp only [mask_shift_24, mask_shift_16, mask_shift_8]
  · decide

/-- Claim C6: for every 64-bit integer input, the integer overload of
`GetMACAddress` returns six upper-case hex byte pairs joined by colons,
taken from bits 40 down to 0 in 8-bit steps, and formatting
`0x001122334455` yields `"00:11:22:33:44:55"`. -/
theorem c6_mac_format :
    (∀ value : Int, GetMACAddressInt value = macFormatSpec value) ∧
    GetMACAddressInt 0x001122334455 = "00:11:22:33:44:55" := by
  constructor
  · intro value
    unfold GetMACAddressInt macFormatSpec
    simp only [mask_shift_40, mask_shift_32, mask_shift_24,
      mask_shift_16, mask_shift_8]
  · decide

/-- Claim C7: the string overload of `GetMACAddress` maps each character
positionally, sending every dash to a colon and leaving every other
character unchanged, and `"AA-BB-CC-DD-EE-FF"` normalizes to
`"AA:BB:CC:DD:EE:FF"`. -/
theorem c7_mac_normalize :
    (∀ (s : String) (i : Nat),
      (GetMACAddressStr s).data[i]? =
        (s.data[i]?).map (fun c => if c = '-' then ':' else c)) ∧
    GetMACAddressStr "AA-BB-CC-DD-EE-FF" = "AA:BB:CC:DD:EE:FF" := by
  constructor
  · intro s i
    simp [GetMACAddressStr, List.getElem?_map]
  · decide

/-! ### Helper lemmas on the CLI flag handling -/

/-- Lower-casing leaves a string that is no upper-case flag unchanged. -/
theorem lowerFlag_eq_self (f : String) (h1 : f ≠ "-A") (h2 : f ≠ "-S")
    (h3 : f ≠ "-M") (h4 : f ≠ "-I") (h5 : f ≠ "-N") (h6 : f ≠ "-G") :
    lowerFlag f = f := by
  unfold lowerFlag
  rw [if_neg h1, if_neg h2, if_neg h3, if_neg h4, if_neg h5, if_neg h6]

/-- Case analysis of `lowerFlag`: the argument is one of the six
upper-case flags, mapped to its lower-case form, or left unchanged. -/
theorem lowerFlag_cases (f : String) :
    (f = "-A" ∧ lowerFlag f = "-a") ∨ (f = "-S" ∧ lowerFlag f = "-s") ∨
    (f = "-M" ∧ lowerFlag f = "-m") ∨ (f = "-I" ∧ lowerFlag f = "-i") ∨
    (f = "-N" ∧ lowerFlag f = "-n") ∨ (f = "-G" ∧ lowerFlag f = "-g") ∨
    lowerFlag f = f := by
  by_cases h1 : f = "-A"
  · exact Or.inl ⟨h1, by rw [h1]; exact rfl⟩
  by_cases h2 : f = "-S"
  · exact Or.inr (Or.inl ⟨h2, by rw [h2]; exact rfl⟩)
  by_cases h3 : f = "-M"
  · exact Or.inr (Or.inr (Or.inl ⟨h3, by rw [h3]; exact rfl⟩))
  by_cases h4 : f = "-I"
  · exact Or.inr (Or.inr (Or.inr (Or.inl ⟨h4, by rw [h4]; exact rfl⟩)))
  by_cases h5 : f = "-N"
  · exact Or.inr (Or.inr (Or.inr (Or.inr (Or.inl ⟨h5, by rw [h5]; exact rfl⟩))))
  by_cases h6 : f = "-G"
  · exact Or.inr (Or.inr (Or.inr (Or.inr (Or.inr (Or.inl ⟨h6, by rw [h6]; exact rfl⟩)))))
  exact Or.inr (Or.inr (Or.inr (Or.inr (Or.inr (Or.inr
    (lowerFlag_eq_self f h1 h2 h3 h4 h5 h6))))))

/-- Lower-casing the head flag does not change whether it reads `-a`. -/
theorem lowerFlag_is_a (a : String) :
    (lowerFlag a = "-a" ∨ lowerFlag a = "-A") ↔ (a = "-a" ∨ a = "-A") := by
  rcases lowerFlag_cases a with ⟨rfl, he⟩ | ⟨rfl, he⟩ | ⟨rfl, he⟩ |
    ⟨rfl, he⟩ | ⟨rfl, he⟩ | ⟨rfl, he⟩ | he <;>
    rw [he] <;> first | exact Iff.rfl | decide

/-- Lower-casing the head flag does not change whether it reads `-s`. -/
theorem lowerFlag_is_s (a : String) :
    (lowerFlag a = "-s" ∨ lowerFlag a = "-S") ↔ (a = "-s" ∨ a = "-S") := by
  rcases lowerFlag_cases a with ⟨rfl, he⟩ | ⟨rfl, he⟩ | ⟨rfl, he⟩ |
    ⟨rfl, he⟩ | ⟨rfl, he⟩ | ⟨rfl, he⟩ | he <;>
    rw [he] <;> first | exact Iff.rfl | decide

/-- Lower-casing the head flag does not change whether it reads `-m`. -/
theorem lowerFlag_is_m (a : String) :
    (lowerFlag a = "-m" ∨ lowerFlag a = "-M") ↔ (a = "-m" ∨ a = "-M") := by
  rcases lowerFlag_cases a with ⟨rfl, he⟩ | ⟨rfl, he⟩ | ⟨rfl, he⟩ |
    ⟨rfl, he⟩ | ⟨rfl, he⟩ | ⟨rfl, he⟩ | he <;>
    rw [he] <;> first | exact Iff.rfl | decide

/-- Lower-casing the head flag does not change whether it reads `-i`. -/
theorem lowerFlag_is_i (a : String) :
    (lowerFlag a = "-i" ∨ lowerFlag a = "-I") ↔ (a = "-i" ∨ a = "-I") := by
  rcases lowerFlag_cases a with ⟨rfl, he⟩ | ⟨rfl, he⟩ | ⟨rfl, he⟩ |
    ⟨rfl, he⟩ | ⟨rfl, he⟩ | ⟨rfl, he⟩ | he <;>
    rw [he] <;> first | exact Iff.rfl | decide

/-- Lower-casing the head flag does not change whether it reads `-n`. -/
theorem lowerFlag_is_n (a : String) :
    (lowerFlag a = "-n" ∨ lowerFlag a = "-N") ↔ (a = "-n" ∨ a = "-N") := by
  rcases lowerFlag_cases a with ⟨rfl, he⟩ | ⟨rfl, he⟩ | ⟨rfl, he⟩ |
    ⟨rfl, he⟩ | ⟨rfl, he⟩ | ⟨rfl, he⟩ | he <;>
    rw [he] <;> first | exact Iff.rfl | decide

/-- Lower-casing the head flag does not change whether it reads `-g`. -/
theorem lowerFlag_is_g (a : String) :
    (lowerFlag a = "-g" ∨ lowerFlag a = "-G") ↔ (a = "-g" ∨ a = "-G") := by
  rcases lowerFlag_cases a with ⟨rfl, he⟩ | ⟨rfl, he⟩ | ⟨rfl, he⟩ |
    ⟨rfl, he⟩ | ⟨rfl, he⟩ | ⟨rfl, he⟩ | he <;>
    rw [he] <;> first | exact Iff.rfl | decide

/-- One scan step is determined by which flag conditions its argument
satisfies. -/
theorem parseStep_congr (f g v : String) (o : GigEOptions)
    (hs : (f = "-s" ∨ f = "-S") ↔ (g = "-s" ∨ g = "-S"))
    (hm : (f = "-m" ∨ f = "-M") ↔ (g = "-m" ∨ g = "-M"))
    (hi : (f = "-i" ∨ f = "-I") ↔ (g = "-i" ∨ g = "-I"))
    (hn : (f = "-n" ∨ f = "-N") ↔ (g = "-n" ∨ g = "-N"))
    (hg : (f = "-g" ∨ f = "-G") ↔ (g = "-g" ∨ g = "-G")) :
    parseStep f v o = parseStep g v o := by
  unfold parseStep
  exact if_congr hs rfl (if_congr hm rfl (if_congr hi rfl
    (if_congr hn rfl (if_congr hg rfl rfl))))

/-- One scan step treats a lower-cased flag exactly like the original. -/
theorem parseStep_lowerFlag (f v : String) (o : GigEOptions) :
    parseStep (lowerFlag f) v o = parseStep f v o :=
  parseStep_congr (lowerFlag f) f v o (lowerFlag_is_s f) (lowerFlag_is_m f)
    (lowerFlag_is_i f) (lowerFlag_is_n f) (lowerFlag_is_g f)

/-- A scan step on an unrecognized flag leaves the options unchanged. -/
theorem parseStep_skip (f v : String) (o : GigEOptions)
    (h1 : ¬ (f = "-s" ∨ f = "-S")) (h2 : ¬ (f = "-m" ∨ f = "-M"))
    (h3 : ¬ (f = "-i" ∨ f = "-I")) (h4 : ¬ (f = "-n" ∨ f = "-N"))
    (h5 : ¬ (f = "-g" ∨ f = "-G")) : parseStep f v o = o := by
  unfold parseStep
  rw [if_neg h1, if_neg h2, if_neg h3, if_neg h4, if_neg h5]

/-- A scan step on the serial flag stores the serial number. -/
theorem parseStep_serial (f v : String) (o : GigEOptions)
    (h : f = "-s" ∨ f = "-S") :
    parseStep f v o = { o with serialNumber := v } := by
  unfold parseStep
  rw [if_pos h]

/-- A scan step on the IP flag stores the IP address. -/
theorem parseStep_ip (f v : String) (o : GigEOptions)
    (h1 : ¬ (f = "-s" ∨ f = "-S")) (h2 : ¬ (f = "-m" ∨ f = "-M"))
    (h : f = "-i" ∨ f = "-I") :
    parseStep f v o = { o with ipAddress := v } := by
  unfold parseStep
  rw [if_neg h1, if_neg h2, if_pos h]

/-- A scan step on the netmask flag stores the subnet mask. -/
theorem parseStep_mask (f v : String) (o : GigEOptions)
    (h1 : ¬ (f = "-s" ∨ f = "-S")) (h2 : ¬ (f = "-m" ∨ f = "-M"))
    (h3 : ¬ (f = "-i" ∨ f = "-I")) (h : f = "-n" ∨ f = "-N") :
    parseStep f v o = { o with subnetMask := v } := by
  unfold parseStep
  rw [if_neg h1, if_neg h2, if_neg h3, if_pos h]

/-- A scan step on the gateway flag stores the gateway. -/
theorem parseStep_gateway (f v : String) (o : GigEOptions)
    (h1 : ¬ (f = "-s" ∨ f = "-S")) (h2 : ¬ (f = "-m" ∨ f = "-M"))
    (h3 : ¬ (f = "-i" ∨ f = "-I")) (h4 : ¬ (f = "-n" ∨ f = "-N"))
    (h : f = "-g" ∨ f = "-G") :
    parseStep f v o = { o with gateway := v } := by
  unfold parseStep
  rw [if_neg h1, if_neg h2, if_neg h3, if_neg h4, if_pos h]

/-- The options the C9 witness invocation scans. -/
theorem scan8_c9_example :
    scan8 "-s" "21444890" "-i" "192.168.1.5" "-n" "255.255.255.0"
      "-g" "192.168.1.1" =
    { serialNumber := "21444890", macAddress := "",
      ipAddress := "192.168.1.5", subnetMask := "255.255.255.0",
      gateway := "192.168.1.1" } := by
  unfold scan8
  rw [parseStep_serial _ _ _ (Or.inl rfl),
    parseStep_ip _ _ _ (by decide) (by decide) (Or.inl rfl),
    parseStep_mask _ _ _ (by decide) (by decide) (by decide) (Or.inl rfl),
    parseStep_gateway _ _ _ (by decide) (by decide) (by decide) (by decide)
      (Or.inl rfl)]

/-- The options the C8 counterexample invocation scans: all junk flags
are skipped, leaving every field at its empty default. -/
theorem scan8_c8_example :
    scan8 "-x" "a" "-y" "b" "-z" "c" "-w" "d" = {} := by
  unfold scan8
  rw [parseStep_skip "-x" "a" _ (by decide) (by decide) (by decide)
      (by decide) (by decide),
    parseStep_skip "-y" "b" _ (by decide) (by decide) (by decide)
      (by decide) (by decide),
    parseStep_skip "-z" "c" _ (by decide) (by decide) (by decide)
      (by decide) (by decide),
    parseStep_skip "-w" "d" _ (by decide) (by decide) (by decide)
      (by decide) (by decide)]

/-- The empty options pass `main`'s non-zero comparisons. -/
theorem valid8_default : valid8 ({} : GigEOptions) :=
  ⟨Or.inl (by decide), by decide, by decide, by decide⟩

/-- Scanning with lower-cased flags accumulates the same options. -/
theorem scan8_lowerFlag (f1 v1 f2 v2 f3 v3 f4 v4 : String) :
    scan8 (lowerFlag f1) v1 (lowerFlag f2) v2 (lowerFlag f3) v3
      (lowerFlag f4) v4 = scan8 f1 v1 f2 v2 f3 v3 f4 v4 := by
  unfold scan8
  rw [parseStep_lowerFlag, parseStep_lowerFlag, parseStep_lowerFlag,
    parseStep_lowerFlag]

/-- `main` on one argument, as an unfolding equation. -/
theorem gigeMain_one (a : String) :
    gigeMain [a] = if a = "-a" ∨ a = "-A" then
      (0, [CliAction.autoConfigure]) else (-1, [CliAction.usage]) := rfl

/-- `main` on two arguments, as an unfolding equation. -/
theorem gigeMain_two (a v : String) :
    gigeMain [a, v] =
      if a = "-s" ∨ a = "-S" then (0, [CliAction.listBySerial v])
      else if a = "-m" ∨ a = "-M" then
        (0, [CliAction.listByMAC (GetMACAddressStr v)])
      else (-1, [CliAction.usage]) := rfl

/-- `main` on eight accepted arguments runs `ConfigureCamera` on the
scanned options and exits 0. -/
theorem gigeMain_eight_pos (f1 v1 f2 v2 f3 v3 f4 v4 : String)
    (hc : valid8 (scan8 f1 v1 f2 v2 f3 v3 f4 v4)) :
    gigeMain [f1, v1, f2, v2, f3, v3, f4, v4] =
      (0, ConfigureCamera (scan8 f1 v1 f2 v2 f3 v3 f4 v4).serialNumber
        (scan8 f1 v1 f2 v2 f3 v3 f4 v4).macAddress
        (scan8 f1 v1 f2 v2 f3 v3 f4 v4).ipAddress
        (scan8 f1 v1 f2 v2 f3 v3 f4 v4).subnetMask
        (scan8 f1 v1 f2 v2 f3 v3 f4 v4).gateway) :=
  if_pos hc

/-- `main` on eight rejected arguments prints usage and exits -1. -/
theorem gigeMain_eight_neg (f1 v1 f2 v2 f3 v3 f4 v4 : String)
    (hc : ¬ valid8 (scan8 f1 v1 f2 v2 f3 v3 f4 v4)) :
    gigeMain [f1, v1, f2, v2, f3, v3, f4, v4] = (-1, [CliAction.usage]) :=
  if_neg hc

/-- The acceptance condition on one argument, as an unfolding equation. -/
theorem acceptedArgs_one (a : String) :
    acceptedArgs [a] = (a = "-a" ∨ a = "-A") := rfl

/-- The acceptance condition on two arguments. -/
theorem acceptedArgs_two (a v : String) :
    acceptedArgs [a, v] =
      (a = "-s" ∨ a = "-S" ∨ a = "-m" ∨ a = "-M") := rfl

/-- The acceptance condition on eight arguments. -/
theorem acceptedArgs_eight (f1 v1 f2 v2 f3 v3 f4 v4 : String) :
    acceptedArgs [f1, v1, f2, v2, f3, v3, f4, v4] =
      valid8 (scan8 f1 v1 f2 v2 f3 v3 f4 v4) := rfl

/-- Exit-code bookkeeping for an accepted run: exit 0, no usage text. -/
theorem run_accepted {P : Prop} (hP : P) (acts : List CliAction)
    (hu : CliAction.usage ∉ acts) :
    (((0 : Int), acts).1 = 0 ↔ P) ∧ (((0 : Int), acts).1 = -1 ↔ ¬ P) ∧
      (CliAction.usage ∈ ((0 : Int), acts).2 ↔ ¬ P) :=
  ⟨⟨fun _ => hP, fun _ => rfl⟩,
    ⟨fun h => absurd h (by decide : ¬ ((0 : Int) = -1)),
      fun hn => absurd hP hn⟩,
    ⟨fun h => absurd h hu, fun hn => absurd hP hn⟩⟩

/-- Exit-code bookkeeping for a rejected run: usage text and exit -1. -/
theorem run_rejected {P : Prop} (hP : ¬ P) :
    ((((-1) : Int), [CliAction.usage]).1 = 0 ↔ P) ∧
      ((((-1) : Int), [CliAction.usage]).1 = -1 ↔ ¬ P) ∧
      (CliAction.usage ∈ (((-1) : Int), [CliAction.usage]).2 ↔ ¬ P) :=
  ⟨⟨fun h => absurd h (by decide : ¬ (((-1) : Int) = 0)),
      fun hp => absurd hp hP⟩,
    ⟨fun _ => hP, fun _ => rfl⟩,
    ⟨fun _ => hP, fun _ => List.Mem.head _⟩⟩

/-! ### Claim theorems for the CLI -/

/-- Claim C8 counterexample: eight junk flag/value pairs are not a
well-formed command in the claim's enumeration, yet the tool accepts them
and exits 0, because the unset option fields (empty strings) pass every
non-zero comparison in `main`. -/
theorem c8_counterexample :
    (gigeMain ["-x", "a", "-y", "b", "-z", "c", "-w", "d"]).1 = 0 ∧
    ¬ wellFormedCommand ["-x", "a", "-y", "b", "-z", "c", "-w", "d"] := by
  constructor
  · have hc : valid8 (scan8 "-x" "a" "-y" "b" "-z" "c" "-w" "d") := by
      rw [scan8_c8_example]
      exact valid8_default
    rw [gigeMain_eight_pos "-x" "a" "-y" "b" "-z" "c" "-w" "d" hc]
  · intro h
    rcases h with h | h | ⟨s, h⟩ | ⟨m, h⟩ | ⟨id, ip, mask, gw, h | h, -⟩ <;>
      simp at h

/-- Claim C8 amended: the CLI exits 0 exactly on the argument lists
`main` actually accepts — no arguments; one argument `-a`/`-A`; two
arguments whose first is `-s`/`-S`/`-m`/`-M`; or eight arguments scanned
as four flag/value pairs whose resulting option fields (empty when a flag
never occurs) pass the non-zero comparisons against `"0"`,
`"00:00:00:00"` and `"0.0.0.0"` — and on every other argument list it
prints the usage text and exits -1; with zero arguments it lists all
devices and exits 0, and `-s` with no following value exits -1. -/
theorem c8_amended_exit_codes :
    (∀ args : List String,
      ((gigeMain args).1 = 0 ↔ acceptedArgs args) ∧
      ((gigeMain args).1 = -1 ↔ ¬ acceptedArgs args) ∧
      (CliAction.usage ∈ (gigeMain args).2 ↔ ¬ acceptedArgs args)) ∧
    gigeMain [] = (0, [CliAction.listAll]) ∧
    gigeMain ["-s"] = (-1, [CliAction.usage]) := by
  refine ⟨?_, rfl, rfl⟩
  intro args
  match args with
  | [] => exact run_accepted trivial [CliAction.listAll] (by simp)
  | [a] =>
      rw [gigeMain_one, acceptedArgs_one]
      by_cases h : a = "-a" ∨ a = "-A"
      · rw [if_pos h]
        exact run_accepted h _ (by simp)
      · rw [if_neg h]
        exact run_rejected h
  | [a, v] =>
      rw [gigeMain_two, acceptedArgs_two]
      by_cases h1 : a = "-s" ∨ a = "-S"
      · rw [if_pos h1]
        exact run_accepted (by tauto) _ (by simp)
      · rw [if_neg h1]
        by_cases h2 : a = "-m" ∨ a = "-M"
        · rw [if_pos h2]
          exact run_accepted (by tauto) _ (by simp)
        · rw [if_neg h2]
          exact run_rejected (by tauto)
  | [f1, v1, f2, v2, f3, v3, f4, v4] =>
      rw [acceptedArgs_eight]
      by_cases hc : valid8 (scan8 f1 v1 f2 v2 f3 v3 f4 v4)
      · rw [gigeMain_eight_pos f1 v1 f2 v2 f3 v3 f4 v4 hc]
        exact run_accepted hc _ (by simp [ConfigureCamera])
      · rw [gigeMain_eight_neg f1 v1 f2 v2 f3 v3 f4 v4 hc]
        exact run_rejected hc
  | [a, b, c] => exact run_rejected fun h => h
  | [a, b, c, d] => exact run_rejected fun h => h
  | [a, b, c, d, e] => exact run_rejected fun h => h
  | [a, b, c, d, e, f] => exact run_rejected fun h => h
  | [a, b, c, d, e, f, g] => exact run_rejected fun h => h
  | a :: b :: c :: d :: e :: f :: g :: h :: i :: t =>
      exact run_rejected fun h => h

/-- Claim C9: on the accepted 9-argument path, `main` calls
`ConfigureCamera`, which only reports that forcing a specific IP address,
netmask and gateway is unsupported: no force-IP configuration is
performed, no usage/error text is printed, and the process exits 0. -/
theorem c9_not_supported (f1 v1 f2 v2 f3 v3 f4 v4 : String)
    (hc : valid8 (scan8 f1 v1 f2 v2 f3 v3 f4 v4)) :
    gigeMain [f1, v1, f2, v2, f3, v3, f4, v4] =
      (0, [CliAction.configureReport]) ∧
    (∀ ip mask gw, CliAction.forceIP ip mask gw ∉
      (gigeMain [f1, v1, f2, v2, f3, v3, f4, v4]).2) ∧
    CliAction.usage ∉ (gigeMain [f1, v1, f2, v2, f3, v3, f4, v4]).2 := by
  have he : gigeMain [f1, v1, f2, v2, f3, v3, f4, v4] =
      (0, [CliAction.configureReport]) :=
    gigeMain_eight_pos f1 v1 f2 v2 f3 v3 f4 v4 hc
  refine ⟨he, ?_, ?_⟩
  · intro ip mask gw
    rw [he]
    simp
  · rw [he]
    simp

/-- Witness for C9 at a concrete accepted invocation. -/
theorem c9_witness :
    gigeMain ["-s", "21444890", "-i", "192.168.1.5",
        "-n", "255.255.255.0", "-g", "192.168.1.1"] =
      (0, [CliAction.configureReport]) ∧
    (∀ ip mask gw, CliAction.forceIP ip mask gw ∉
      (gigeMain ["-s", "21444890", "-i", "192.168.1.5",
        "-n", "255.255.255.0", "-g", "192.168.1.1"]).2) ∧
    CliAction.usage ∉
      (gigeMain ["-s", "21444890", "-i", "192.168.1.5",
        "-n", "255.255.255.0", "-g", "192.168.1.1"]).2 :=
  c9_not_supported "-s" "21444890" "-i" "192.168.1.5"
    "-n" "255.255.255.0" "-g" "192.168.1.1"
    (by rw [scan8_c9_example]
        exact ⟨Or.inl (by decide), by decide, by decide, by decide⟩)

/-- Claim C10: lower-casing the option flags at the flag positions of any
argument list leaves the run of `main` — the operation performed and the
exit code — unchanged, so each upper-case flag behaves identically to its
lower-case counterpart. -/
theorem c10_uppercase_flags (args : List String) :
    gigeMain (lowerEven args) = gigeMain args := by
  match args with
  | [] => rfl
  | [a] =>
      show gigeMain [lowerFlag a] = gigeMain [a]
      rw [gigeMain_one, gigeMain_one]
      exact if_congr (lowerFlag_is_a a) rfl rfl
  | [a, v] =>
      show gigeMain [lowerFlag a, v] = gigeMain [a, v]
      rw [gigeMain_two, gigeMain_two]
      exact if_congr (lowerFlag_is_s a) rfl
        (if_congr (lowerFlag_is_m a) rfl rfl)
  | [a, b, c] => rfl
  | [a, b, c, d] => rfl
  | [a, b, c, d, e] => rfl
  | [a, b, c, d, e, f] => rfl
  | [a, b, c, d, e, f, g] => rfl
  | [f1, v1, f2, v2, f3, v3, f4, v4] =>
      show gigeMain [lowerFlag f1, v1, lowerFlag f2, v2, lowerFlag f3, v3,
        lowerFlag f4, v4] = gigeMain [f1, v1, f2, v2, f3, v3, f4, v4]
      by_cases hc : valid8 (scan8 f1 v1 f2 v2 f3 v3 f4 v4)
      · have hc2 : valid8 (scan8 (lowerFlag f1) v1 (lowerFlag f2) v2
            (lowerFlag f3) v3 (lowerFlag f4) v4) := by
          rw [scan8_lowerFlag]
          exact hc
        rw [gigeMain_eight_pos _ _ _ _ _ _ _ _ hc2,
          gigeMain_eight_pos _ _ _ _ _ _ _ _ hc, scan8_lowerFlag]
      · have hc2 : ¬ valid8 (scan8 (lowerFlag f1) v1 (lowerFlag f2) v2
            (lowerFlag f3) v3 (lowerFlag f4) v4) := by
          rw [scan8_lowerFlag]
          exact hc
        rw [gigeMain_eight_neg _ _ _ _ _ _ _ _ hc2,
          gigeMain_eight_neg _ _ _ _ _ _ _ _ hc]
  | a :: b :: c :: d :: e :: f :: g :: h :: i :: t =>
      cases t <;> rfl

/-! ### Helper lemmas on lists and the topology model -/

/-- Dropping past a marker element and a first block exposes the second
block of a trace. -/
theorem drop_marker {α : Type} (a : α) (l1 l2 : List α) :
    ∃ k, 1 ≤ k ∧ ((a :: l1) ++ l2).drop k = l2 :=
  ⟨l1.length + 1, Nat.le_add_left 1 _, List.drop_left (a :: l1) l2⟩

/-- In a list of pairs whose first components are distinct, two members
with the same first component are the same pair. -/
theorem fst_nodup_eq_of_eq_fst :
    ∀ (l : List (Nat × String)), (l.map Prod.fst).Nodup →
      ∀ p ∈ l, ∀ q ∈ l, p.1 = q.1 → p = q := by
  intro l
  induction l with
  | nil =>
      intro _ p hp
      exact absurd hp (List.not_mem_nil p)
  | cons a t ih =>
      intro hn p hp q hq hpq
      rw [List.map_cons, List.nodup_cons] at hn
      obtain ⟨ha, ht⟩ := hn
      rcases List.mem_cons.mp hp with rfl | hp'
      · rcases List.mem_cons.mp hq with rfl | hq'
        · rfl
        · exact absurd (List.mem_map.mpr ⟨q, hq', hpq.symm⟩) ha
      · rcases List.mem_cons.mp hq with rfl | hq'
        · exact absurd (List.mem_map.mpr ⟨p, hp', hpq⟩) ha
        · exact ih ht p hp' q hq' hpq

/-- Membership in an interface's device sequence, in terms of the
enumerated hardware pairs. -/
theorem mem_hostedCameras (hw : Hardware) (id : String) (d : Nat) :
    d ∈ hostedCameras hw id ↔ ∃ p, p ∈ hw.devices ∧ p.1 = d ∧ p.2 = id := by
  simp only [hostedCameras, List.mem_map, List.mem_filter, beq_iff_eq]
  constructor
  · rintro ⟨p, ⟨hp, h2⟩, h1⟩
    exact ⟨p, hp, h1, h2⟩
  · rintro ⟨p, hp, h1, h2⟩
    exact ⟨p, ⟨hp, h2⟩, h1⟩

/-- With session-unique serial numbers, a device enumerated on one
interface is on no other interface. -/
theorem hostedCameras_unique (hw : Hardware)
    (hdev : (hw.devices.map Prod.fst).Nodup) (d : Nat) (id₀ : String)
    (h0 : d ∈ hostedCameras hw id₀) :
    ∀ id, d ∈ hostedCameras hw id ↔ id = id₀ := by
  obtain ⟨p₀, hp₀, hp₀1, hp₀2⟩ := (mem_hostedCameras hw id₀ d).mp h0
  intro id
  constructor
  · intro hid
    obtain ⟨q, hq, hq1, hq2⟩ := (mem_hostedCameras hw id d).mp hid
    have hqp : q = p₀ :=
      fst_nodup_eq_of_eq_fst hw.devices hdev q hq p₀ hp₀ (by rw [hq1, hp₀1])
    rw [← hq2, hqp, hp₀2]
  · rintro rfl
    exact h0

/-- With session-unique serial numbers, each interface's device sequence
has no duplicates. -/
theorem hostedCameras_nodup (hw : Hardware)
    (hdev : (hw.devices.map Prod.fst).Nodup) (id : String) :
    (hostedCameras hw id).Nodup :=
  List.Nodup.sublist ((List.filter_sublist hw.devices).map Prod.fst) hdev

/-! ### Claim theorems for the event and topology models -/

/-- Claim C2: on interface arrival and on interface removal alike, the
handler refreshes the registry, then (after the arrival-side device
listing and the system-scope re-registration) re-enumerates the new
interface list and re-issues a registration on every interface in it, so
that when it returns every interface in the current list carries an
interface-scope subscription. -/
theorem c2_handler_refresh_reenumerate_reregister
    (ifaceID : String) (s : SpinState) :
    ((OnInterfaceArrival ifaceID s).1.current = s.hardware ∧
      (OnInterfaceArrival ifaceID s).1.registered =
        (OnInterfaceArrival ifaceID s).1.current.map IfaceInfo.ifaceID ∧
      (OnInterfaceArrival ifaceID s).2.head? =
        some EvAction.updateInterfaceList ∧
      ∃ k, 1 ≤ k ∧ (OnInterfaceArrival ifaceID s).2.drop k =
        EvAction.getInterfaces ::
          (OnInterfaceArrival ifaceID s).1.current.map
            (fun f => EvAction.registerIfaceEvent f.ifaceID)) ∧
    ((OnInterfaceRemoval ifaceID s).1.current = s.hardware ∧
      (OnInterfaceRemoval ifaceID s).1.registered =
        (OnInterfaceRemoval ifaceID s).1.current.map IfaceInfo.ifaceID ∧
      (OnInterfaceRemoval ifaceID s).2.head? =
        some EvAction.updateInterfaceList ∧
      ∃ k, 1 ≤ k ∧ (OnInterfaceRemoval ifaceID s).2.drop k =
        EvAction.getInterfaces ::
          (OnInterfaceRemoval ifaceID s).1.current.map
            (fun f => EvAction.registerIfaceEvent f.ifaceID)) := by
  refine ⟨⟨rfl, rfl, rfl, ?_⟩, ⟨rfl, rfl, rfl, ?_⟩⟩
  · exact drop_marker EvAction.updateInterfaceList
      ((EvAction.getInterfaces ::
        (((UpdateInterfaceList s).current.filter
          (fun f => f.ifaceID == ifaceID)).flatMap
          (fun f => f.cameras.map EvAction.printDevice))) ++
        [EvAction.registerSystemEvent]) _
  · exact drop_marker EvAction.updateInterfaceList
      [EvAction.registerSystemEvent] _

/-- Claim C1: in the notification sequence the dispatcher delivers for a
departing interface, every device-removal notification is delivered
strictly before the interface-removal notification, and by the time the
interface-removal notification is delivered, a device-removal
notification for every attached device has already been delivered. -/
theorem c1_device_removal_before_interface_removal
    (iface : IfaceInfo) (i j s : Nat)
    (hi : (interfaceDepartureNotifications iface)[i]? =
      some (Notification.deviceRemoval s))
    (hj : (interfaceDepartureNotifications iface)[j]? =
      some (Notification.interfaceRemoval iface.ifaceID)) :
    i < j ∧ ∀ d ∈ iface.cameras, ∃ k, k < j ∧
      (interfaceDepartureNotifications iface)[k]? =
        some (Notification.deviceRemoval d) := by
  have hjlen : iface.cameras.length ≤ j := by
    by_contra hlt
    push_neg at hlt
    rw [interfaceDepartureNotifications,
      List.getElem?_append_left (by simpa using hlt),
      List.getElem?_map] at hj
    cases hx : iface.cameras[j]? with
    | none => rw [hx] at hj; simp at hj
    | some c => rw [hx] at hj; simp at hj
  have hilt : i < iface.cameras.length := by
    by_contra hge
    push_neg at hge
    rw [interfaceDepartureNotifications,
      List.getElem?_append_right (by simpa using hge)] at hi
    cases hz : i - (iface.cameras.map Notification.deviceRemoval).length with
    | zero => rw [hz] at hi; simp at hi
    | succ n => rw [hz] at hi; simp at hi
  refine ⟨by omega, fun d hd => ?_⟩
  obtain ⟨k, hk⟩ := List.getElem?_of_mem hd
  have hklt : k < iface.cameras.length :=
    (List.getElem?_eq_some_iff.mp hk).1
  refine ⟨k, by omega, ?_⟩
  rw [interfaceDepartureNotifications,
    List.getElem?_append_left (by simpa using hklt),
    List.getElem?_map, hk]
  rfl

/-- Witness for C1 on a one-camera interface. -/
theorem c1_witness :
    0 < 1 ∧ ∀ d ∈ [5], ∃ k, k < 1 ∧
      (interfaceDepartureNotifications ⟨"eth0", [5]⟩)[k]? =
        some (Notification.deviceRemoval d) :=
  c1_device_removal_before_interface_removal
    ⟨"eth0", [5]⟩ 0 1 5 rfl rfl

/-- Claim C3: registering an interface-scope subscription via a handle
whose originating snapshot has been superseded — in particular via any
handle issued before a subsequent `Refresh` — returns the `StaleHandle`
error, while the operation is total and its only other outcome is
ordinary success. -/
theorem c3_stale_handle (r : TopologyRegistry) (h : InterfaceHandle) :
    (h.originEpoch < r.epoch →
      RegisterSubscription r h = Except.error SpinErr.StaleHandle) ∧
    (∀ hw, h ∈ getInterfaceHandles r →
      RegisterSubscription (Refresh r hw) h =
        Except.error SpinErr.StaleHandle) ∧
    (RegisterSubscription r h = Except.ok r ∨
      RegisterSubscription r h = Except.error SpinErr.StaleHandle) := by
  refine ⟨fun hlt => ?_, fun hw hmem => ?_, ?_⟩
  · unfold RegisterSubscription
    rw [if_neg (by omega)]
  · have hep : h.originEpoch = r.epoch := by
      obtain ⟨f, -, rfl⟩ := List.mem_map.mp hmem
      rfl
    unfold RegisterSubscription Refresh
    rw [if_neg (by simp [hep])]
  · unfold RegisterSubscription
    split
    · exact Or.inl rfl
    · exact Or.inr rfl

/-- Witness for C3: a handle issued at epoch 0 is stale after a refresh. -/
theorem c3_witness :
    RegisterSubscription
        (Refresh { epoch := 0, snapshot := [⟨"eth0", [5]⟩] } [])
        { ifaceID := "eth0", originEpoch := 0 } =
      Except.error SpinErr.StaleHandle :=
  (c3_stale_handle { epoch := 0, snapshot := [⟨"eth0", [5]⟩] }
    { ifaceID := "eth0", originEpoch := 0 }).2.1 [] (List.Mem.head _)

/-- Claim C4: in a snapshot taken over hardware with distinct interface
IDs and session-unique device serial numbers, every device in the
flattened system-wide list lies on exactly one interface of the same
snapshot, and exactly once in that interface's device sequence. -/
theorem c4_snapshot_partition (hw : Hardware)
    (hifs : hw.interfaceIDs.Nodup)
    (hdev : (hw.devices.map Prod.fst).Nodup) :
    ∀ d ∈ (takeSnapshot hw).devices,
      (takeSnapshot hw).interfaces.countP
        (fun f => decide (d ∈ f.cameras)) = 1 ∧
      ∀ f ∈ (takeSnapshot hw).interfaces, d ∈ f.cameras →
        f.cameras.count d = 1 := by
  intro d hd
  have hifseq : (takeSnapshot hw).interfaces =
      hw.interfaceIDs.map (fun id => ⟨id, hostedCameras hw id⟩) := rfl
  have hdev' : (takeSnapshot hw).devices =
      (takeSnapshot hw).interfaces.flatMap IfaceInfo.cameras := rfl
  rw [hdev', hifseq, List.mem_flatMap] at hd
  obtain ⟨f, hf, hdf⟩ := hd
  rw [List.mem_map] at hf
  obtain ⟨id₀, hid₀, rfl⟩ := hf
  constructor
  · rw [hifseq, List.countP_map]
    rw [List.countP_congr (q := fun id => id == id₀) ?_]
    · rw [← List.count_eq_countP]
      exact List.count_eq_one_of_mem hifs hid₀
    · intro id _
      simp [Function.comp, hostedCameras_unique hw hdev d id₀ hdf id]
  · intro f' hf' hdf'
    rw [hifseq, List.mem_map] at hf'
    obtain ⟨id', -, rfl⟩ := hf'
    exact List.count_eq_one_of_mem (hostedCameras_nodup hw hdev id') hdf'

/-- Witness for C4 on a two-interface, two-device topology. -/
theorem c4_witness :
    (takeSnapshot ⟨["eth0", "eth1"], [(1, "eth0"), (2, "eth1")]⟩).interfaces.countP
        (fun f => decide (1 ∈ f.cameras)) = 1 ∧
    ∀ f ∈ (takeSnapshot ⟨["eth0", "eth1"],
        [(1, "eth0"), (2, "eth1")]⟩).interfaces,
      1 ∈ f.cameras → f.cameras.count 1 = 1 :=
  c4_snapshot_partition ⟨["eth0", "eth1"], [(1, "eth0"), (2, "eth1")]⟩
    (by decide) (by decide) 1 (by decide)

end Blackfly
